import Mathlib

/-!
# clamav-server: the HTTP gateway in front of the ClamAV daemon

A shallow embedding of `clamav-server/main.go`.  The handlers are state
transformers over a `World`: the response writer, the state of the daemon
client and a trace of the effects performed so far.  The parts of the Go
standard library the handlers call (`http.Error`, `http.Redirect`,
`Request.ParseMultipartForm` with `multipart.Reader.ReadForm`, `Part.FileName`
with `filepath.Base`, `Request.FormFile`, `json.Encoder.Encode`) are embedded
next to them, following the library's behaviour as of Go 1.21 on Unix.
-/

set_option autoImplicit false

namespace ClamavServer

/-! ## Data -/

/-- Raw bytes of a request body or of an uploaded file. -/
abbrev Bytes := List UInt8

/-- A Go slice, which is either the nil slice or a (possibly empty) sequence. -/
inductive Slice (α : Type) where
  | null : Slice α
  | elems : List α → Slice α

/-- Go's `append(s, x)`: appending to the nil slice yields a one-element slice. -/
def Slice.append {α : Type} : Slice α → α → Slice α
  | .null, x => .elems [x]
  | .elems l, x => .elems (l ++ [x])

/-- The elements of a slice, the nil slice having none. -/
def Slice.toList {α : Type} : Slice α → List α
  | .null => []
  | .elems l => l

/-- JSON documents as produced by `encoding/json`. -/
inductive JSON where
  | null : JSON
  | bool : Bool → JSON
  | num : Int → JSON
  | str : String → JSON
  | arr : List JSON → JSON
  | obj : List (String × JSON) → JSON

/-- The member of a JSON object under key `k`, if the document is an object that has one. -/
def JSON.field (k : String) : JSON → Option JSON
  | .obj kvs => (kvs.find? (fun p => p.1 == k)).map (fun p => p.2)
  | _ => none

/-- The type `ScanResult` of main.go: the result of a scan. -/
structure ScanResult where
  Filename : String
  Status : String
  Clean : Bool

/-- The JSON encoding of a `ScanResult`, by its field tags `filename`, `status`, `clean`. -/
def ScanResult.toJSON (x : ScanResult) : JSON :=
  .obj [("filename", .str x.Filename), ("status", .str x.Status), ("clean", .bool x.Clean)]

/-- The JSON encoding of a `[]ScanResult`: the nil slice encodes as `null`, any other as an array. -/
def encodeResults : Slice ScanResult → JSON
  | .null => .null
  | .elems l => .arr (l.map ScanResult.toJSON)

/-- The fields of `clamd.Response` that the handlers read.  The client returns a
slice of pointers to such records, none of them nil. -/
structure Response where
  Filename : String
  Status : String

/-! ## The response writer -/

/-- An `http.Header`: keys with their values.  Every key used by the handlers is
already in canonical MIME form, so canonicalisation is the identity on them. -/
abbrev Header := List (String × List String)

/-- The method `Header.Del`. -/
def Header.Del (h : Header) (k : String) : Header :=
  h.filter (fun p => !(p.1 == k))

/-- The method `Header.Set`: the key is bound to the single value `v`. -/
def Header.Set (h : Header) (k v : String) : Header :=
  (k, [v]) :: Header.Del h k

/-- The method `Header.Get`: the first value under `k`, or the empty string. -/
def Header.Get (h : Header) (k : String) : String :=
  match h.find? (fun p => p.1 == k) with
  | some (_, v :: _) => v
  | _ => ""

/-- Whether the header map has an entry for `k` (Go's `_, ok := h[k]`). -/
def Header.has (h : Header) (k : String) : Bool :=
  h.any (fun p => p.1 == k)

/-- One write to the response body. -/
inductive Chunk where
  /-- Text written with `fmt.Fprintln`, the trailing newline included. -/
  | text : String → Chunk
  /-- A document written by `json.Encoder.Encode` (which ends it with a newline). -/
  | json : JSON → Chunk

/-- An `http.ResponseWriter`, recording what is sent: `header` is the live header
map, `sent` the status code and the snapshot of the header map taken when the
header was written, `body` the writes in order. -/
structure ResponseWriter where
  header : Header
  sent : Option (Nat × Header)
  body : List Chunk

/-- The status code of the response, once the header has been written. -/
def ResponseWriter.status (w : ResponseWriter) : Option Nat :=
  w.sent.map (fun p => p.1)

/-- The value of header `k` as sent to the client. -/
def ResponseWriter.sentGet (w : ResponseWriter) (k : String) : Option String :=
  w.sent.map (fun p => Header.Get p.2 k)

/-- A writer as the HTTP server hands it to a handler. -/
def ResponseWriter.new : ResponseWriter :=
  { header := [], sent := none, body := [] }

/-- Nothing has been sent on the writer yet: no status line and no body. -/
def ResponseWriter.unwritten (w : ResponseWriter) : Bool :=
  w.sent.isNone && w.body.isEmpty

/-- The method `w.Header().Set(k, v)`. -/
def ResponseWriter.setHeader (w : ResponseWriter) (k v : String) : ResponseWriter :=
  { w with header := Header.Set w.header k v }

/-- The method `w.Header().Del(k)`. -/
def ResponseWriter.delHeader (w : ResponseWriter) (k : String) : ResponseWriter :=
  { w with header := Header.Del w.header k }

/-- The method `w.WriteHeader(code)`: the first call fixes status and headers,
later calls are ignored. -/
def ResponseWriter.WriteHeader (w : ResponseWriter) (code : Nat) : ResponseWriter :=
  match w.sent with
  | some _ => w
  | none => { w with sent := some (code, w.header) }

/-- The method `w.Write`: an implicit `WriteHeader(200)` if none was written, then the data. -/
def ResponseWriter.Write (w : ResponseWriter) (c : Chunk) : ResponseWriter :=
  let w1 := w.WriteHeader 200
  { w1 with body := w1.body ++ [c] }

def StatusOK : Nat := 200
def StatusFound : Nat := 302
def StatusBadRequest : Nat := 400
def StatusNotFound : Nat := 404
def StatusMethodNotAllowed : Nat := 405
def StatusInternalServerError : Nat := 500

/-- The function `http.Error`: replies with the message as plain text and the given code. -/
def Error (w : ResponseWriter) (msg : String) (code : Nat) : ResponseWriter :=
  let w1 := w.delHeader "Content-Length"
  let w2 := w1.setHeader "Content-Type" "text/plain; charset=utf-8"
  let w3 := w2.setHeader "X-Content-Type-Options" "nosniff"
  let w4 := w3.WriteHeader code
  w4.Write (.text (msg ++ "\n"))

/-- The function `http.NotFound`. -/
def NotFound (w : ResponseWriter) : ResponseWriter :=
  Error w "404 page not found" StatusNotFound

/-- The function `http.StatusText`, on the codes the handlers use. -/
def StatusText (code : Nat) : String :=
  if code = 200 then "OK"
  else if code = 302 then "Found"
  else if code = 400 then "Bad Request"
  else if code = 404 then "Not Found"
  else if code = 405 then "Method Not Allowed"
  else if code = 500 then "Internal Server Error"
  else ""

/-- The function `http.Redirect` for a target `url` that is an absolute path in
clean form, as `/static/` is: on such a target the path normalisation and the
escaping done by the library are the identity. -/
def Redirect (w : ResponseWriter) (method : String) (url : String) (code : Nat) :
    ResponseWriter :=
  let hadCT := Header.has w.header "Content-Type"
  let w1 := w.setHeader "Location" url
  let w2 := if !hadCT && (method == "GET" || method == "HEAD") then
      w1.setHeader "Content-Type" "text/html; charset=utf-8" else w1
  let w3 := w2.WriteHeader code
  if !hadCT && method == "GET" then
    w3.Write (.text ("<a href=\"" ++ url ++ "\">" ++ StatusText code ++ "</a>.\n" ++ "\n"))
  else w3

/-- The call `json.NewEncoder(w).Encode(v)`. -/
def Encode (w : ResponseWriter) (v : JSON) : ResponseWriter :=
  w.Write (.json v)

/-! ## Requests and multipart forms -/

/-- The function `filepath.Base` on Unix, where the separator is the slash: the
last element of the path, after trailing slashes are removed; `.` for the empty
path and `/` for a path of slashes only. -/
def Base (path : String) : String :=
  if path = "" then "."
  else
    let stripped := path.toList.reverse.dropWhile (fun c => c == '/')
    let last := (stripped.takeWhile (fun c => c != '/')).reverse
    if last.isEmpty then "/" else String.mk last

/-- One part of a multipart body, as `multipart.Reader.NextPart` yields it:
`Header` is its MIME header, `Disposition`, `Name` and `Filename` are the type
and the `name` and `filename` parameters of its Content-Disposition as the
library parses them (the empty string when absent), `content` its data. -/
structure Part where
  Header : Header
  Disposition : String
  Name : String
  Filename : String
  content : Bytes

/-- The method `Part.FormName`: the `name` parameter of a `form-data` part. -/
def Part.FormName (p : Part) : String :=
  if p.Disposition ≠ "form-data" then "" else p.Name

/-- The method `Part.FileName`: the `filename` parameter, without its directories. -/
def Part.FileName (p : Part) : String :=
  if p.Filename = "" then "" else Base p.Filename

/-- The type `multipart.FileHeader`, by what the handler reads of it: the name
and size of an uploaded file, with the data `Open` gives access to and whether
it was spooled to a temporary file. -/
structure FileHeader where
  Filename : String
  Size : Nat
  content : Bytes
  onDisk : Bool

/-- The type `multipart.Form`: text values and files, each in the order received. -/
structure Form where
  Value : List (String × Bytes)
  File : List (String × FileHeader)

/-- The error `multipart.ErrMessageTooLarge`. -/
def ErrMessageTooLarge : String := "multipart: message too large"

/-- The error `http.ErrMissingFile`. -/
def ErrMissingFile : String := "http: no such file"

/-- The function `mimeHeaderSize` of mime/multipart: 400 bytes for the map, and
for each key its length, 200 bytes and the lengths of its values. -/
def mimeHeaderSize (h : Header) : Int :=
  400 + (h.map (fun kv => (kv.1.utf8ByteSize : Int) + 200 +
    (kv.2.map (fun v => (v.utf8ByteSize : Int))).sum)).sum

/-- The number of header lines of a MIME header: one per value. -/
def headerLines (h : Header) : Int :=
  (h.map (fun kv => (kv.2.length : Int))).sum

/-- The limits `ReadForm` keeps while it reads the parts: parts and header
lines still allowed, bytes of file data that may still be kept in memory, and
bytes of memory left in all. -/
structure Budget where
  maxParts : Int
  maxHeaders : Int
  maxFileMemoryBytes : Int
  maxMemoryBytes : Int

/-- The body of the loop of `multipart.Reader.ReadForm` (as of Go 1.21), for
one part.  Reading the header of the part fails when it has more lines than
are left or does not fit the memory left; the part is then counted; a part
with no form name is skipped; name and file header are charged to the memory
budget; a text value that exceeds that budget fails the parse, while a file
that exceeds the file budget is written to a temporary file, which fails only
if `tempFiles` is false, when the temporary file cannot be written. -/
def readFormPart (tempFiles : Bool) (p : Part) (b : Budget) (form : Form) :
    Except String (Budget × Form) :=
  if headerLines p.Header > b.maxHeaders ∨
      (headerLines p.Header > 0 ∧ mimeHeaderSize p.Header > b.maxMemoryBytes) then
    .error ErrMessageTooLarge
  else if b.maxParts ≤ 0 then .error ErrMessageTooLarge
  else
    let b1 : Budget := { b with maxParts := b.maxParts - 1 }
    if p.FormName = "" then .ok (b1, form)
    else
      let b2 : Budget :=
        { b1 with maxMemoryBytes := b1.maxMemoryBytes - p.FormName.utf8ByteSize - 200 }
      if b2.maxMemoryBytes < 0 then .error ErrMessageTooLarge
      else if p.FileName = "" then
        let n : Int := min (p.content.length : Int) (b2.maxMemoryBytes + 1)
        let b3 : Budget := { b2 with maxMemoryBytes := b2.maxMemoryBytes - n }
        if b3.maxMemoryBytes < 0 then .error ErrMessageTooLarge
        else .ok (b3, { form with Value := form.Value ++ [(p.FormName, p.content)] })
      else
        let b3 : Budget :=
          { b2 with maxMemoryBytes := b2.maxMemoryBytes - mimeHeaderSize p.Header - 200 - 100 }
        if b3.maxMemoryBytes < 0 then .error ErrMessageTooLarge
        else
          let b4 : Budget := { b3 with maxHeaders := b3.maxHeaders - headerLines p.Header }
          let n : Int := min (p.content.length : Int) (b4.maxFileMemoryBytes + 1)
          if n > b4.maxFileMemoryBytes then
            if tempFiles then
              .ok (b4, { form with File := form.File ++
                [(p.FormName, ⟨p.FileName, p.content.length, p.content, true⟩)] })
            else .error "open multipart temporary file: permission denied"
          else
            let b5 : Budget :=
              { b4 with maxFileMemoryBytes := b4.maxFileMemoryBytes - n,
                        maxMemoryBytes := b4.maxMemoryBytes - n }
            .ok (b5, { form with File := form.File ++
              [(p.FormName, ⟨p.FileName, p.content.length, p.content, false⟩)] })

/-- The loop of `multipart.Reader.ReadForm` over the parts of the body. -/
def readFormLoop (tempFiles : Bool) : List Part → Budget → Form → Except String Form
  | [], _, form => .ok form
  | p :: ps, b, form =>
    match readFormPart tempFiles p b form with
    | .error e => .error e
    | .ok next => readFormLoop tempFiles ps next.1 next.2

/-- The largest `int64`. -/
def MaxInt64 : Int := 2 ^ 63 - 1

/-- The method `multipart.Reader.ReadForm`: at most 1000 parts and 10000 header
lines; up to `maxMemory` bytes of file data are kept in memory, and ten more
MiB than that are allowed for everything kept in memory (the two guards are
those of the library on an `int64` sum that is not positive). -/
def ReadForm (tempFiles : Bool) (parts : List Part) (maxMemory : Int) : Except String Form :=
  let maxFileMemoryBytes := if maxMemory = MaxInt64 then maxMemory - 1 else maxMemory
  let sum := maxMemory + 10 * 2 ^ 20
  let maxMemoryBytes :=
    if sum > MaxInt64 then MaxInt64 else if sum ≤ 0 then 0 else sum
  readFormLoop tempFiles parts
    { maxParts := 1000, maxHeaders := 10000, maxFileMemoryBytes := maxFileMemoryBytes,
      maxMemoryBytes := maxMemoryBytes }
    { Value := [], File := [] }

/-- An `http.Request`, by what the handlers observe of it: the method, the URL
path, the outcome of reading the body to its end, the outcome of reading the
body as a multipart stream (an error when it is not one), the error of
`Request.ParseForm` on the URL query if it has one, and whether the library can
write this request's files to temporary files. -/
structure Request where
  Method : String
  Path : String
  Body : Except String Bytes
  Multipart : Except String (List Part)
  ParseFormErr : Option String
  TempFiles : Bool

/-- The method `Request.ParseMultipartForm`: the error of `ParseForm` is kept
and returned at the end, after the multipart body has been read. -/
def ParseMultipartForm (r : Request) (maxMemory : Int) : Except String Form :=
  match r.Multipart with
  | .error e => .error e
  | .ok parts =>
    match ReadForm r.TempFiles parts maxMemory with
    | .error e => .error e
    | .ok form =>
      match r.ParseFormErr with
      | some e => .error e
      | none => .ok form

/-- The method `Request.FormFile` on a parsed form: the first file under `key`. -/
def FormFile (form : Form) (key : String) : Except String FileHeader :=
  match form.File.find? (fun p => p.1 == key) with
  | some p => .ok p.2
  | none => .error ErrMissingFile

/-! ## The daemon client and the world -/

/-- The three operations of `clamd.Client` the server uses, over a daemon state
`σ`: each returns its result, or the text of its error, and the next state. -/
structure Client (σ : Type) where
  Ping : σ → Except String Bool × σ
  Version : σ → Except String String × σ
  ScanReader : σ → Bytes → Except String (List Response) × σ

/-- The type `Server` of main.go. -/
structure Server (σ : Type) where
  clamdClient : Client σ

/-- The effects a handler performs besides writing the response. -/
inductive Event where
  | ping : Event
  | version : Event
  | scanReader : Bytes → Event
  | readAll : Event
  | parseMultipartForm : Int → Event
  | formFile : String → Event
  | logReceived : String → Nat → Event

/-- Whether an effect is a call to the daemon. -/
def Event.isDaemonCall : Event → Bool
  | .ping => true
  | .version => true
  | .scanReader _ => true
  | _ => false

/-- Whether an effect is a call to the daemon's scan operation. -/
def Event.isScan : Event → Bool
  | .scanReader _ => true
  | _ => false

/-- The number of calls to the daemon in a trace. -/
def daemonCalls (tr : List Event) : Nat :=
  (tr.filter Event.isDaemonCall).length

/-- The number of calls to the daemon's scan operation in a trace. -/
def scanCalls (tr : List Event) : Nat :=
  (tr.filter Event.isScan).length

/-- What a handler runs on: the response writer, the daemon and the effects so far. -/
structure World (σ : Type) where
  w : ResponseWriter
  daemon : σ
  trace : List Event

/-- An `http.Handler`. -/
abbrev Handler (σ : Type) := World σ → Request → World σ

/-- The world at the start of a request, for a daemon in state `d`. -/
def World.start {σ : Type} (d : σ) : World σ :=
  { w := ResponseWriter.new, daemon := d, trace := [] }

/-! ## main.go -/

/-- The function `corsMiddleware`. -/
def corsMiddleware {σ : Type} (next : Handler σ) : Handler σ := fun st r =>
  let w1 := st.w.setHeader "Access-Control-Allow-Origin" "*"
  let w2 := w1.setHeader "Access-Control-Allow-Methods" "GET, POST, OPTIONS"
  let w3 := w2.setHeader "Access-Control-Allow-Headers" "Content-Type"
  if r.Method = "OPTIONS" then
    { st with w := w3.WriteHeader StatusOK }
  else
    next { st with w := w3 } r

/-- The method `Server.PingHandler`. -/
def PingHandler {σ : Type} (s : Server σ) : Handler σ := fun st _ =>
  let res := s.clamdClient.Ping st.daemon
  let st1 : World σ := { st with daemon := res.2, trace := st.trace ++ [Event.ping] }
  match res.1 with
  | .error err =>
    { st1 with w := Error st1.w ("Failed to ping ClamAV: " ++ err) StatusInternalServerError }
  | .ok pingResult =>
    let response := JSON.obj
      [("message", .str "ClamAV daemon is responding"), ("success", .bool pingResult)]
    { st1 with w := Encode (st1.w.setHeader "Content-Type" "application/json") response }

/-- The method `Server.VersionHandler`. -/
def VersionHandler {σ : Type} (s : Server σ) : Handler σ := fun st _ =>
  let res := s.clamdClient.Version st.daemon
  let st1 : World σ := { st with daemon := res.2, trace := st.trace ++ [Event.version] }
  match res.1 with
  | .error err =>
    let msg := "Failed to get ClamAV version: " ++ err
    { st1 with w := Error st1.w msg StatusInternalServerError }
  | .ok version =>
    let response := JSON.obj [("version", .str version)]
    { st1 with w := Encode (st1.w.setHeader "Content-Type" "application/json") response }

/-- The loop of `ScanTextHandler` over the daemon's results, from `[]ScanResult{}`. -/
def textResults (scanResults : List Response) : Slice ScanResult :=
  scanResults.foldl
    (fun results result => results.append
      { Filename := result.Filename, Status := result.Status,
        Clean := result.Status == "OK" })
    (.elems [])

/-- The loop of `ScanFileHandler` over the daemon's results, from `[]ScanResult{}`. -/
def fileResults (handler : FileHeader) (scanResults : List Response) : Slice ScanResult :=
  scanResults.foldl
    (fun results result => results.append
      { Filename := handler.Filename, Status := result.Status,
        Clean := result.Status == "OK" })
    (.elems [])

/-- The method `Server.ScanTextHandler`. -/
def ScanTextHandler {σ : Type} (s : Server σ) : Handler σ := fun st r =>
  if r.Method ≠ "POST" then
    { st with w := Error st.w "Method not allowed" StatusMethodNotAllowed }
  else
    let st1 : World σ := { st with trace := st.trace ++ [Event.readAll] }
    match r.Body with
    | .error _ =>
      { st1 with w := Error st1.w "Failed to read request body" StatusBadRequest }
    | .ok body =>
      let res := s.clamdClient.ScanReader st1.daemon body
      let st2 : World σ :=
        { st1 with daemon := res.2, trace := st1.trace ++ [Event.scanReader body] }
      match res.1 with
      | .error err =>
        { st2 with w := Error st2.w ("Scan failed: " ++ err) StatusInternalServerError }
      | .ok scanResults =>
        let results := textResults scanResults
        let response := JSON.obj [("results", encodeResults results)]
        { st2 with w := Encode (st2.w.setHeader "Content-Type" "application/json") response }

/-- The method `Server.ScanFileHandler`. -/
def ScanFileHandler {σ : Type} (s : Server σ) : Handler σ := fun st r =>
  if r.Method ≠ "POST" then
    { st with w := Error st.w "Method not allowed" StatusMethodNotAllowed }
  else
    let st1 : World σ :=
      { st with trace := st.trace ++ [Event.parseMultipartForm (10 * 2 ^ 20)] }
    match ParseMultipartForm r (10 * 2 ^ 20) with
    | .error _ => { st1 with w := Error st1.w "Failed to parse form" StatusBadRequest }
    | .ok form =>
      let st2 : World σ := { st1 with trace := st1.trace ++ [Event.formFile "file"] }
      match FormFile form "file" with
      | .error _ =>
        { st2 with w := Error st2.w "Failed to get file from form" StatusBadRequest }
      | .ok handler =>
        let st3 : World σ :=
          { st2 with trace := st2.trace ++ [Event.logReceived handler.Filename handler.Size] }
        let res := s.clamdClient.ScanReader st3.daemon handler.content
        let st4 : World σ :=
          { st3 with daemon := res.2,
                     trace := st3.trace ++ [Event.scanReader handler.content] }
        match res.1 with
        | .error err =>
          { st4 with w := Error st4.w ("Scan failed: " ++ err) StatusInternalServerError }
        | .ok scanResults =>
          let results := fileResults handler scanResults
          let response := JSON.obj
            [("filename", .str handler.Filename), ("results", encodeResults results),
             ("size", .num handler.Size)]
          { st4 with w := Encode (st4.w.setHeader "Content-Type" "application/json") response }

/-- The method `Server.IndexHandler`. -/
def IndexHandler {σ : Type} (_s : Server σ) : Handler σ := fun st r =>
  if r.Path ≠ "/" then
    { st with w := NotFound st.w }
  else
    { st with w := Redirect st.w r.Method "/static/" StatusFound }

/-! ## Concrete daemons, for evaluating the handlers -/

/-- A daemon that answers every call, counting the calls it has served: pings
are answered `true`, scans with a single clean result named `stream`. -/
def okClient : Client Nat :=
  { Ping := fun d => (.ok true, d + 1),
    Version := fun d => (.ok "ClamAV 1.0.0", d + 1),
    ScanReader := fun d _ => (.ok [{ Filename := "stream", Status := "OK" }], d + 1) }

/-- A daemon that reports an infected stream and whose ping returns `false` without an error. -/
def foundClient : Client Nat :=
  { Ping := fun d => (.ok false, d + 1),
    Version := fun d => (.ok "ClamAV 1.0.0", d + 1),
    ScanReader := fun d _ =>
      (.ok [{ Filename := "stream", Status := "FOUND" },
            { Filename := "other", Status := "ok" }], d + 1) }

/-- A daemon whose scan returns no result and no error. -/
def silentClient : Client Nat :=
  { Ping := fun d => (.ok true, d + 1),
    Version := fun d => (.ok "ClamAV 1.0.0", d + 1),
    ScanReader := fun d _ => (.ok [], d + 1) }

/-- A daemon that cannot be reached: every call returns an error. -/
def downClient : Client Nat :=
  { Ping := fun d => (.error "dial tcp: connection refused", d + 1),
    Version := fun d => (.error "dial tcp: connection refused", d + 1),
    ScanReader := fun d _ => (.error "dial tcp: connection refused", d + 1) }

/-- A request with the given method and path and an empty body that is not multipart. -/
def plainRequest (method path : String) : Request :=
  { Method := method, Path := path, Body := .ok [],
    Multipart := .error "request Content-Type isn't multipart/form-data",
    ParseFormErr := none, TempFiles := true }

/-- A POST whose body is the given text bytes. -/
def textRequest (body : Bytes) : Request :=
  { Method := "POST", Path := "/scan/text", Body := .ok body,
    Multipart := .error "request Content-Type isn't multipart/form-data",
    ParseFormErr := none, TempFiles := true }

/-- A POST to `/scan/file` whose multipart body has the given parts. -/
def uploadRequest (parts : List Part) : Request :=
  { Method := "POST", Path := "/scan/file", Body := .ok [], Multipart := .ok parts,
    ParseFormErr := none, TempFiles := true }

/-- A file part as a browser sends it: form name, file name and data. -/
def filePart (name filename : String) (content : Bytes) : Part :=
  { Header :=
      [("Content-Disposition",
          ["form-data; name=\"" ++ name ++ "\"; filename=\"" ++ filename ++ "\""]),
       ("Content-Type", ["application/octet-stream"])],
    Disposition := "form-data", Name := name, Filename := filename, content := content }

/-- A text field as a browser sends it: form name and value. -/
def valuePart (name : String) (content : Bytes) : Part :=
  { Header := [("Content-Disposition", ["form-data; name=\"" ++ name ++ "\""])],
    Disposition := "form-data", Name := name, Filename := "", content := content }

/-- The upload of the spec's round trip: `sample.txt`, seventeen bytes long. -/
def sampleUpload : Request :=
  uploadRequest [filePart "file" "sample.txt" (List.replicate 17 65)]

/-- The file header `ReadForm` builds for `sampleUpload`. -/
def sampleHeader : FileHeader :=
  { Filename := "sample.txt", Size := 17, content := List.replicate 17 65, onDisk := false }

/-- The form `ReadForm` builds for `sampleUpload`. -/
def sampleForm : Form :=
  { Value := [], File := [("file", sampleHeader)] }

/-- The same seventeen bytes, uploaded under a file name with directories. -/
def nestedUpload : Request :=
  uploadRequest [filePart "file" "dir/sub/sample.txt" (List.replicate 17 65)]

/-- An upload with a text field and a file under another name, none named `file`. -/
def strayParts : List Part :=
  [valuePart "note" [104, 105], filePart "upload" "a.txt" [97]]

/-- The request that carries `strayParts`. -/
def strayUpload : Request :=
  uploadRequest strayParts

/-- The form `ReadForm` builds for `strayUpload`. -/
def strayForm : Form :=
  { Value := [("note", [104, 105])],
    File := [("upload", { Filename := "a.txt", Size := 1, content := [97], onDisk := false })] }

/-- An upload of one byte more than 10 MiB. -/
def largeUpload : Request :=
  uploadRequest [filePart "file" "big.bin" (List.replicate (10 * 2 ^ 20 + 1) 0)]

/-! ## Headers and the response writer -/

theorem unwritten_spec (w : ResponseWriter) (h : w.unwritten = true) :
    w.sent = none ∧ w.body = [] := by
  simpa [ResponseWriter.unwritten, Option.isNone_iff_eq_none, List.isEmpty_iff] using h

theorem Header.find_Del_of_ne (h : Header) (k k' : String) (hne : k' ≠ k) :
    (Header.Del h k).find? (fun p => p.1 == k') = h.find? (fun p => p.1 == k') := by
  induction h with
  | nil => rfl
  | cons a t ih =>
    unfold Header.Del at ih ⊢
    by_cases hak : a.1 = k
    · have hkk : ¬ k = k' := fun h' => hne h'.symm
      simp [List.filter_cons, List.find?_cons, hak, hkk, ih]
    · by_cases hak' : a.1 = k'
      · simp [List.filter_cons, List.find?_cons, hak', hne]
      · simp [List.filter_cons, List.find?_cons, hak, hak', ih]

theorem Header.Get_Del_of_ne (h : Header) (k k' : String) (hne : k' ≠ k) :
    Header.Get (Header.Del h k) k' = Header.Get h k' := by
  unfold Header.Get
  rw [Header.find_Del_of_ne h k k' hne]

theorem Header.Get_Set_self (h : Header) (k v : String) :
    Header.Get (Header.Set h k v) k = v := by
  simp [Header.Get, Header.Set]

theorem Header.Get_Set_of_ne (h : Header) (k k' v : String) (hne : k' ≠ k) :
    Header.Get (Header.Set h k v) k' = Header.Get h k' := by
  have hkk : ¬ k = k' := fun h' => hne h'.symm
  have : Header.Get (Header.Set h k v) k' = Header.Get (Header.Del h k) k' := by
    simp [Header.Get, Header.Set, List.find?_cons, hkk]
  rw [this, Header.Get_Del_of_ne h k k' hne]

theorem Error_sent (w : ResponseWriter) (msg : String) (code : Nat) (hw : w.sent = none) :
    (Error w msg code).sent = some (code,
      Header.Set (Header.Set (Header.Del w.header "Content-Length")
        "Content-Type" "text/plain; charset=utf-8") "X-Content-Type-Options" "nosniff") := by
  simp [Error, ResponseWriter.Write, ResponseWriter.WriteHeader, ResponseWriter.setHeader,
    ResponseWriter.delHeader, hw]

theorem Error_status (w : ResponseWriter) (msg : String) (code : Nat) (hw : w.sent = none) :
    (Error w msg code).status = some code := by
  simp [ResponseWriter.status, Error_sent w msg code hw]

theorem Error_body (w : ResponseWriter) (msg : String) (code : Nat) (hw : w.sent = none) :
    (Error w msg code).body = w.body ++ [Chunk.text (msg ++ "\n")] := by
  simp [Error, ResponseWriter.Write, ResponseWriter.WriteHeader, ResponseWriter.setHeader,
    ResponseWriter.delHeader, hw]

theorem Encode_json_status (w : ResponseWriter) (v : JSON) (hw : w.sent = none) :
    (Encode (w.setHeader "Content-Type" "application/json") v).status = some 200 := by
  simp [Encode, ResponseWriter.status, ResponseWriter.Write, ResponseWriter.WriteHeader,
    ResponseWriter.setHeader, hw]

theorem Encode_json_body (w : ResponseWriter) (v : JSON) (hw : w.sent = none) :
    (Encode (w.setHeader "Content-Type" "application/json") v).body = w.body ++ [Chunk.json v] := by
  simp [Encode, ResponseWriter.Write, ResponseWriter.WriteHeader,
    ResponseWriter.setHeader, hw]

theorem daemonCalls_append (a b : List Event) :
    daemonCalls (a ++ b) = daemonCalls a + daemonCalls b := by
  simp [daemonCalls]

theorem scanCalls_append (a b : List Event) :
    scanCalls (a ++ b) = scanCalls a + scanCalls b := by
  simp [scanCalls]

/-! ## The result loops -/

theorem foldl_append_elems {α β : Type} (f : α → β) (L : List α) (acc : List β) :
    L.foldl (fun results result => Slice.append results (f result)) (Slice.elems acc)
      = Slice.elems (acc ++ L.map f) := by
  induction L generalizing acc with
  | nil => simp
  | cons a t ih =>
    have step : Slice.append (Slice.elems acc) (f a) = Slice.elems (acc ++ [f a]) := rfl
    rw [List.foldl_cons, step, ih]
    simp

theorem textResults_eq (L : List Response) :
    textResults L = Slice.elems (L.map (fun result =>
      { Filename := result.Filename, Status := result.Status,
        Clean := result.Status == "OK" })) := by
  unfold textResults
  rw [foldl_append_elems]
  simp

theorem fileResults_eq (handler : FileHeader) (L : List Response) :
    fileResults handler L = Slice.elems (L.map (fun result =>
      { Filename := handler.Filename, Status := result.Status,
        Clean := result.Status == "OK" })) := by
  unfold fileResults
  rw [foldl_append_elems]
  simp

/-! ## Reading the multipart form -/

theorem Base_ne_empty (path : String) : Base path ≠ "" := by
  unfold Base
  dsimp only
  split_ifs with h1 h2
  · decide
  · decide
  · intro h
    have h3 := congrArg String.data h
    simp only [List.isEmpty_iff] at h2
    exact h2 h3

theorem FileName_eq_Base (p : Part) (h : p.FileName ≠ "") : p.FileName = Base p.Filename := by
  unfold Part.FileName at h ⊢
  split_ifs at h ⊢ with h1
  · exact absurd rfl h
  · rfl

theorem readFormPart_File (tempFiles : Bool) (p : Part) (b : Budget) (form : Form)
    (next : Budget × Form) (h : readFormPart tempFiles p b form = .ok next) :
    (next.2.File = form.File ∧ (p.FormName = "" ∨ p.FileName = "")) ∨
    (p.FormName ≠ "" ∧ p.FileName ≠ "" ∧ ∃ d : Bool, next.2.File = form.File ++
      [(p.FormName, ⟨p.FileName, p.content.length, p.content, d⟩)]) := by
  unfold readFormPart at h
  dsimp only at h
  split_ifs at h with h1 h2 h3 h4 h5 h6 h7 h8 h9 <;>
    simp only [Except.ok.injEq] at h <;> subst h
  · exact Or.inl ⟨rfl, Or.inl h3⟩
  · exact Or.inl ⟨rfl, Or.inr h5⟩
  · exact Or.inr ⟨h3, h5, true, rfl⟩
  · exact Or.inr ⟨h3, h5, false, rfl⟩

theorem readFormLoop_find_stable (tempFiles : Bool) (key : String) (ps : List Part)
    (b : Budget) (form out : Form) (e : String × FileHeader)
    (h : readFormLoop tempFiles ps b form = .ok out)
    (hfind : form.File.find? (fun q => q.1 == key) = some e) :
    out.File.find? (fun q => q.1 == key) = some e := by
  induction ps generalizing b form with
  | nil =>
    simp only [readFormLoop, Except.ok.injEq] at h
    rw [← h]; exact hfind
  | cons p ps ih =>
    rw [readFormLoop] at h
    cases hstep : readFormPart tempFiles p b form with
    | error err => simp [hstep] at h
    | ok next =>
      simp only [hstep] at h
      rcases readFormPart_File tempFiles p b form next hstep with ⟨hF, _⟩ | ⟨_, _, d, hF⟩
      · exact ih _ _ h (by rw [hF]; exact hfind)
      · exact ih _ _ h (by rw [hF]; simp [List.find?_append, hfind])

theorem readFormLoop_find (tempFiles : Bool) (key : String) (hk : key ≠ "")
    (ps : List Part) (b : Budget) (form out : Form)
    (h : readFormLoop tempFiles ps b form = .ok out)
    (hfind : form.File.find? (fun q => q.1 == key) = none) :
    (out.File.find? (fun q => q.1 == key)).map
        (fun q => (q.2.Filename, q.2.Size, q.2.content))
      = (ps.find? (fun p => p.FormName == key && !(p.FileName == ""))).map
        (fun p => (p.FileName, p.content.length, p.content)) := by
  induction ps generalizing b form with
  | nil =>
    simp only [readFormLoop, Except.ok.injEq] at h
    rw [← h, hfind]; rfl
  | cons p ps ih =>
    rw [readFormLoop] at h
    cases hstep : readFormPart tempFiles p b form with
    | error err => simp [hstep] at h
    | ok next =>
      simp only [hstep] at h
      rcases readFormPart_File tempFiles p b form next hstep with
        ⟨hF, hskip⟩ | ⟨hname, hfile, d, hF⟩
      · rw [ih _ _ h (by rw [hF]; exact hfind)]
        rcases hskip with h1 | h2
        · have hp : ¬ p.FormName = key := fun h' => hk (h'.symm.trans h1)
          simp [List.find?_cons, hp]
        · simp [List.find?_cons, h2]
      · by_cases hp : p.FormName = key
        · rw [readFormLoop_find_stable tempFiles key ps _ _ out
            (p.FormName, ⟨p.FileName, p.content.length, p.content, d⟩) h
            (by rw [hF]; simp [List.find?_append, hfind, hp])]
          simp [List.find?_cons, hp, hfile]
        · rw [ih _ _ h (by rw [hF]; simp [List.find?_append, hfind, hp])]
          simp [List.find?_cons, hp]

theorem ReadForm_of_ParseMultipartForm (r : Request) (parts : List Part) (form : Form)
    (maxMemory : Int) (hparts : r.Multipart = .ok parts)
    (hf : ParseMultipartForm r maxMemory = .ok form) :
    ReadForm r.TempFiles parts maxMemory = .ok form := by
  unfold ParseMultipartForm at hf
  rw [hparts] at hf
  dsimp only at hf
  cases hr : ReadForm r.TempFiles parts maxMemory with
  | error e => simp [hr] at hf
  | ok form1 =>
    cases hq : r.ParseFormErr with
    | some e => simp [hr, hq] at hf
    | none =>
      simp only [hr, hq, Except.ok.injEq] at hf
      rw [hf]

theorem FormFile_of_first_part (r : Request) (parts : List Part) (form : Form) (p : Part)
    (hparts : r.Multipart = .ok parts)
    (hf : ParseMultipartForm r (10 * 2 ^ 20) = .ok form)
    (hp : parts.find? (fun q => q.FormName == "file" && !(q.FileName == "")) = some p) :
    ∃ handler : FileHeader, FormFile form "file" = .ok handler ∧
      handler.Filename = p.FileName ∧ handler.Size = p.content.length ∧
      handler.content = p.content := by
  have hr := ReadForm_of_ParseMultipartForm r parts form _ hparts hf
  unfold ReadForm at hr
  have h := readFormLoop_find r.TempFiles "file" (by decide) parts _ _ form hr rfl
  rw [hp] at h
  unfold FormFile
  cases hq : form.File.find? (fun q => q.1 == "file") with
  | none => simp [hq] at h
  | some q =>
    simp only [hq, Option.map_some', Option.some.injEq, Prod.mk.injEq] at h
    exact ⟨q.2, rfl, h.1, h.2.1, h.2.2⟩

theorem FormFile_of_no_part (r : Request) (parts : List Part) (form : Form)
    (hparts : r.Multipart = .ok parts)
    (hf : ParseMultipartForm r (10 * 2 ^ 20) = .ok form)
    (hp : parts.find? (fun q => q.FormName == "file" && !(q.FileName == "")) = none) :
    FormFile form "file" = .error ErrMissingFile := by
  have hr := ReadForm_of_ParseMultipartForm r parts form _ hparts hf
  unfold ReadForm at hr
  have h := readFormLoop_find r.TempFiles "file" (by decide) parts _ _ form hr rfl
  rw [hp] at h
  unfold FormFile
  cases hq : form.File.find? (fun q => q.1 == "file") with
  | none => rfl
  | some q => simp [hq] at h

/-! ## The paths of the scan handlers -/

theorem ScanTextHandler_error {σ : Type} (s : Server σ) (st : World σ) (r : Request)
    (body : Bytes) (e : String) (hm : r.Method = "POST") (hbody : r.Body = .ok body)
    (he : (s.clamdClient.ScanReader st.daemon body).1 = .error e) :
    ScanTextHandler s st r =
      { w := Error st.w ("Scan failed: " ++ e) StatusInternalServerError,
        daemon := (s.clamdClient.ScanReader st.daemon body).2,
        trace := st.trace ++ [Event.readAll, Event.scanReader body] } := by
  simp [ScanTextHandler, hm, hbody, he]

theorem ScanTextHandler_ok {σ : Type} (s : Server σ) (st : World σ) (r : Request)
    (body : Bytes) (L : List Response) (hm : r.Method = "POST") (hbody : r.Body = .ok body)
    (hL : (s.clamdClient.ScanReader st.daemon body).1 = .ok L) :
    ScanTextHandler s st r =
      { w := Encode (st.w.setHeader "Content-Type" "application/json")
          (.obj [("results", encodeResults (textResults L))]),
        daemon := (s.clamdClient.ScanReader st.daemon body).2,
        trace := st.trace ++ [Event.readAll, Event.scanReader body] } := by
  simp [ScanTextHandler, hm, hbody, hL]

theorem ScanFileHandler_error {σ : Type} (s : Server σ) (st : World σ) (r : Request)
    (form : Form) (handler : FileHeader) (e : String) (hm : r.Method = "POST")
    (hf : ParseMultipartForm r (10 * 2 ^ 20) = .ok form)
    (hh : FormFile form "file" = .ok handler)
    (he : (s.clamdClient.ScanReader st.daemon handler.content).1 = .error e) :
    ScanFileHandler s st r =
      { w := Error st.w ("Scan failed: " ++ e) StatusInternalServerError,
        daemon := (s.clamdClient.ScanReader st.daemon handler.content).2,
        trace := st.trace ++ [Event.parseMultipartForm (10 * 2 ^ 20), Event.formFile "file",
          Event.logReceived handler.Filename handler.Size,
          Event.scanReader handler.content] } := by
  have hf1 : ParseMultipartForm r 10485760 = .ok form := by simpa using hf
  simp [ScanFileHandler, hm, hf1, hh, he]

theorem ScanFileHandler_ok {σ : Type} (s : Server σ) (st : World σ) (r : Request)
    (form : Form) (handler : FileHeader) (L : List Response) (hm : r.Method = "POST")
    (hf : ParseMultipartForm r (10 * 2 ^ 20) = .ok form)
    (hh : FormFile form "file" = .ok handler)
    (hL : (s.clamdClient.ScanReader st.daemon handler.content).1 = .ok L) :
    ScanFileHandler s st r =
      { w := Encode (st.w.setHeader "Content-Type" "application/json")
          (.obj [("filename", .str handler.Filename),
                 ("results", encodeResults (fileResults handler L)),
                 ("size", .num handler.Size)]),
        daemon := (s.clamdClient.ScanReader st.daemon handler.content).2,
        trace := st.trace ++ [Event.parseMultipartForm (10 * 2 ^ 20), Event.formFile "file",
          Event.logReceived handler.Filename handler.Size,
          Event.scanReader handler.content] } := by
  have hf1 : ParseMultipartForm r 10485760 = .ok form := by simpa using hf
  simp [ScanFileHandler, hm, hf1, hh, hL]

theorem ScanFileHandler_missing {σ : Type} (s : Server σ) (st : World σ) (r : Request)
    (form : Form) (e : String) (hm : r.Method = "POST")
    (hf : ParseMultipartForm r (10 * 2 ^ 20) = .ok form)
    (hh : FormFile form "file" = .error e) :
    ScanFileHandler s st r =
      { w := Error st.w "Failed to get file from form" StatusBadRequest,
        daemon := st.daemon,
        trace := st.trace ++ [Event.parseMultipartForm (10 * 2 ^ 20),
          Event.formFile "file"] } := by
  have hf1 : ParseMultipartForm r 10485760 = .ok form := by simpa using hf
  simp [ScanFileHandler, hm, hf1, hh]

/-! ## Method check of the scan handlers -/

/-- C2: a request whose method is not POST gets 405 from `ScanTextHandler` and
from `ScanFileHandler`, with the fixed message as body, and the handler performs
no effect at all: the trace is unchanged (no body read, no form parse, no daemon
call) and so is the daemon, whatever the body and the daemon are. -/
theorem scan_handlers_reject_non_post {σ : Type} (s : Server σ) (st : World σ) (r : Request)
    (hw : st.w.unwritten = true) (hm : r.Method ≠ "POST") :
    ((ScanTextHandler s st r).w.status = some 405 ∧
      (ScanTextHandler s st r).w.body = [Chunk.text "Method not allowed\n"] ∧
      (ScanTextHandler s st r).trace = st.trace ∧
      (ScanTextHandler s st r).daemon = st.daemon) ∧
    ((ScanFileHandler s st r).w.status = some 405 ∧
      (ScanFileHandler s st r).w.body = [Chunk.text "Method not allowed\n"] ∧
      (ScanFileHandler s st r).trace = st.trace ∧
      (ScanFileHandler s st r).daemon = st.daemon) := by
  obtain ⟨hs, hb⟩ := unwritten_spec _ hw
  have e1 : ScanTextHandler s st r =
      { st with w := Error st.w "Method not allowed" StatusMethodNotAllowed } := by
    simp [ScanTextHandler, hm]
  have e2 : ScanFileHandler s st r =
      { st with w := Error st.w "Method not allowed" StatusMethodNotAllowed } := by
    simp [ScanFileHandler, hm]
  rw [e1, e2]
  simp [Error_status _ _ _ hs, Error_body _ _ _ hs, hb, StatusMethodNotAllowed]

theorem scan_handlers_reject_non_post_witness :
    ((ScanTextHandler ⟨okClient⟩ (World.start 0) (plainRequest "GET" "/scan/text")).w.status
        = some 405 ∧
      (ScanTextHandler ⟨okClient⟩ (World.start 0) (plainRequest "GET" "/scan/text")).w.body
        = [Chunk.text "Method not allowed\n"] ∧
      (ScanTextHandler ⟨okClient⟩ (World.start 0) (plainRequest "GET" "/scan/text")).trace
        = [] ∧
      (ScanTextHandler ⟨okClient⟩ (World.start 0) (plainRequest "GET" "/scan/text")).daemon
        = 0) ∧
    ((ScanFileHandler ⟨okClient⟩ (World.start 0) (plainRequest "GET" "/scan/text")).w.status
        = some 405 ∧
      (ScanFileHandler ⟨okClient⟩ (World.start 0) (plainRequest "GET" "/scan/text")).w.body
        = [Chunk.text "Method not allowed\n"] ∧
      (ScanFileHandler ⟨okClient⟩ (World.start 0) (plainRequest "GET" "/scan/text")).trace
        = [] ∧
      (ScanFileHandler ⟨okClient⟩ (World.start 0) (plainRequest "GET" "/scan/text")).daemon
        = 0) :=
  scan_handlers_reject_non_post ⟨okClient⟩ (World.start 0) (plainRequest "GET" "/scan/text")
    rfl (by decide)

theorem Error_sentGet_of_ne (w : ResponseWriter) (msg : String) (code : Nat) (k : String)
    (hw : w.sent = none) (h1 : k ≠ "Content-Length") (h2 : k ≠ "Content-Type")
    (h3 : k ≠ "X-Content-Type-Options") :
    (Error w msg code).sentGet k = some (Header.Get w.header k) := by
  simp [ResponseWriter.sentGet, Error_sent w msg code hw, Header.Get_Set_of_ne _ _ _ _ h3,
    Header.Get_Set_of_ne _ _ _ _ h2, Header.Get_Del_of_ne _ _ _ h1]

theorem Redirect_status (w : ResponseWriter) (method url : String) (code : Nat)
    (hw : w.sent = none) : (Redirect w method url code).status = some code := by
  unfold Redirect
  by_cases h1 : (!Header.has w.header "Content-Type" && (method == "GET" || method == "HEAD"))
      = true <;>
    by_cases h2 : (!Header.has w.header "Content-Type" && method == "GET") = true <;>
    simp only [h1, h2, if_true, if_false] <;>
    simp [ResponseWriter.status, ResponseWriter.Write, ResponseWriter.WriteHeader,
      ResponseWriter.setHeader, hw]

theorem Redirect_location (w : ResponseWriter) (method url : String) (code : Nat)
    (hw : w.sent = none) : (Redirect w method url code).sentGet "Location" = some url := by
  have hne : ("Location" : String) ≠ "Content-Type" := by decide
  unfold Redirect
  by_cases h1 : (!Header.has w.header "Content-Type" && (method == "GET" || method == "HEAD"))
      = true <;>
    by_cases h2 : (!Header.has w.header "Content-Type" && method == "GET") = true <;>
    simp only [h1, h2, if_true, if_false] <;>
    simp [ResponseWriter.sentGet, ResponseWriter.Write, ResponseWriter.WriteHeader,
      ResponseWriter.setHeader, hw, Header.Get_Set_self, Header.Get_Set_of_ne _ _ _ _ hne]

/-! ## The index route -/

/-- C8: `IndexHandler` answers the path `/` with status 302 and the header
`Location: /static/`; any other path gets status 404 with the not-found text,
and no redirect: the `Location` header sent is whatever the writer already had,
the handler sets none. -/
theorem index_handler_redirects_root_only {σ : Type} (s : Server σ) (st : World σ)
    (r : Request) (hw : st.w.unwritten = true) :
    (r.Path = "/" →
      (IndexHandler s st r).w.status = some 302 ∧
      (IndexHandler s st r).w.sentGet "Location" = some "/static/") ∧
    (r.Path ≠ "/" →
      (IndexHandler s st r).w.status = some 404 ∧
      (IndexHandler s st r).w.body = [Chunk.text "404 page not found\n"] ∧
      (IndexHandler s st r).w.sentGet "Location" = some (Header.Get st.w.header "Location")) ∧
    (IndexHandler s st r).trace = st.trace ∧ (IndexHandler s st r).daemon = st.daemon := by
  obtain ⟨hs, hb⟩ := unwritten_spec _ hw
  refine ⟨fun hp => ?_, fun hp => ?_, ?_⟩
  · have e : IndexHandler s st r =
        { st with w := Redirect st.w r.Method "/static/" StatusFound } := by
      simp [IndexHandler, hp]
    rw [e]
    exact ⟨by simp [Redirect_status _ _ _ _ hs, StatusFound], Redirect_location _ _ _ _ hs⟩
  · have e : IndexHandler s st r = { st with w := NotFound st.w } := by
      simp [IndexHandler, hp]
    rw [e]
    refine ⟨?_, ?_, ?_⟩
    · simp [NotFound, Error_status _ _ _ hs, StatusNotFound]
    · simp [NotFound, Error_body _ _ _ hs, hb]
    · exact Error_sentGet_of_ne _ _ _ _ hs (by decide) (by decide) (by decide)
  · by_cases hp : r.Path = "/" <;> simp [IndexHandler, hp]

theorem index_handler_redirects_root_only_witness :
    ((IndexHandler ⟨okClient⟩ (World.start 0) (plainRequest "GET" "/")).w.status = some 302 ∧
      (IndexHandler ⟨okClient⟩ (World.start 0) (plainRequest "GET" "/")).w.sentGet "Location"
        = some "/static/") ∧
    ((IndexHandler ⟨okClient⟩ (World.start 0) (plainRequest "GET" "/unknown-path")).w.status
        = some 404 ∧
      (IndexHandler ⟨okClient⟩ (World.start 0) (plainRequest "GET" "/unknown-path")).w.body
        = [Chunk.text "404 page not found\n"] ∧
      (IndexHandler ⟨okClient⟩ (World.start 0)
        (plainRequest "GET" "/unknown-path")).w.sentGet "Location"
        = some (Header.Get (World.start 0).w.header "Location")) :=
  ⟨(index_handler_redirects_root_only ⟨okClient⟩ (World.start 0) (plainRequest "GET" "/")
      rfl).1 rfl,
   (index_handler_redirects_root_only ⟨okClient⟩ (World.start 0)
      (plainRequest "GET" "/unknown-path") rfl).2.1 (by decide)⟩

/-! ## The CORS middleware -/

/-- C6: for an OPTIONS request `corsMiddleware next` sends status 200 with the
three CORS headers and writes no body, and `next` plays no part: the outcome is
the same for every wrapped handler, trace and daemon are untouched.  For every
other method the outcome is that of one run of `next` on a writer that carries
the three headers and on which nothing has been sent. -/
theorem cors_middleware_options_and_pass {σ : Type} (next : Handler σ) (st : World σ)
    (r : Request) (hw : st.w.unwritten = true) :
    (r.Method = "OPTIONS" →
      (corsMiddleware next st r).w.status = some 200 ∧
      (corsMiddleware next st r).w.body = [] ∧
      (corsMiddleware next st r).w.sentGet "Access-Control-Allow-Origin" = some "*" ∧
      (corsMiddleware next st r).w.sentGet "Access-Control-Allow-Methods"
        = some "GET, POST, OPTIONS" ∧
      (corsMiddleware next st r).w.sentGet "Access-Control-Allow-Headers"
        = some "Content-Type" ∧
      (corsMiddleware next st r).trace = st.trace ∧
      (corsMiddleware next st r).daemon = st.daemon ∧
      ∀ other : Handler σ, corsMiddleware other st r = corsMiddleware next st r) ∧
    (r.Method ≠ "OPTIONS" →
      ∃ w1 : ResponseWriter,
        corsMiddleware next st r = next { st with w := w1 } r ∧
        w1.unwritten = true ∧
        Header.Get w1.header "Access-Control-Allow-Origin" = "*" ∧
        Header.Get w1.header "Access-Control-Allow-Methods" = "GET, POST, OPTIONS" ∧
        Header.Get w1.header "Access-Control-Allow-Headers" = "Content-Type") := by
  obtain ⟨hs, hb⟩ := unwritten_spec _ hw
  have n1 : ("Access-Control-Allow-Origin" : String) ≠ "Access-Control-Allow-Methods" := by
    decide
  have n2 : ("Access-Control-Allow-Origin" : String) ≠ "Access-Control-Allow-Headers" := by
    decide
  have n3 : ("Access-Control-Allow-Methods" : String) ≠ "Access-Control-Allow-Headers" := by
    decide
  refine ⟨fun hm => ?_, fun hm => ?_⟩
  · simp [corsMiddleware, hm, ResponseWriter.status, ResponseWriter.sentGet,
      ResponseWriter.WriteHeader, ResponseWriter.setHeader, hs, hb, StatusOK,
      Header.Get_Set_self, Header.Get_Set_of_ne _ _ _ _ n1, Header.Get_Set_of_ne _ _ _ _ n2,
      Header.Get_Set_of_ne _ _ _ _ n3]
  · refine ⟨((st.w.setHeader "Access-Control-Allow-Origin" "*").setHeader
        "Access-Control-Allow-Methods" "GET, POST, OPTIONS").setHeader
        "Access-Control-Allow-Headers" "Content-Type", ?_, ?_, ?_, ?_, ?_⟩
    · simp [corsMiddleware, hm]
    · simp [ResponseWriter.unwritten, ResponseWriter.setHeader, hs, hb]
    · simp [ResponseWriter.setHeader, Header.Get_Set_of_ne _ _ _ _ n1,
        Header.Get_Set_of_ne _ _ _ _ n2, Header.Get_Set_self]
    · simp [ResponseWriter.setHeader, Header.Get_Set_of_ne _ _ _ _ n3, Header.Get_Set_self]
    · simp [ResponseWriter.setHeader, Header.Get_Set_self]

theorem cors_middleware_options_and_pass_witness :
    ((corsMiddleware (PingHandler ⟨okClient⟩) (World.start 0)
        (plainRequest "OPTIONS" "/ping")).w.status = some 200 ∧
      (corsMiddleware (PingHandler ⟨okClient⟩) (World.start 0)
        (plainRequest "OPTIONS" "/ping")).w.body = [] ∧
      (corsMiddleware (PingHandler ⟨okClient⟩) (World.start 0)
        (plainRequest "OPTIONS" "/ping")).w.sentGet "Access-Control-Allow-Origin"
        = some "*" ∧
      (corsMiddleware (PingHandler ⟨okClient⟩) (World.start 0)
        (plainRequest "OPTIONS" "/ping")).w.sentGet "Access-Control-Allow-Methods"
        = some "GET, POST, OPTIONS" ∧
      (corsMiddleware (PingHandler ⟨okClient⟩) (World.start 0)
        (plainRequest "OPTIONS" "/ping")).w.sentGet "Access-Control-Allow-Headers"
        = some "Content-Type" ∧
      (corsMiddleware (PingHandler ⟨okClient⟩) (World.start 0)
        (plainRequest "OPTIONS" "/ping")).trace = (World.start 0).trace ∧
      (corsMiddleware (PingHandler ⟨okClient⟩) (World.start 0)
        (plainRequest "OPTIONS" "/ping")).daemon = (World.start 0).daemon ∧
      ∀ other : Handler Nat,
        corsMiddleware other (World.start 0) (plainRequest "OPTIONS" "/ping")
          = corsMiddleware (PingHandler ⟨okClient⟩) (World.start 0)
              (plainRequest "OPTIONS" "/ping")) ∧
    (∃ w1 : ResponseWriter,
      corsMiddleware (PingHandler ⟨okClient⟩) (World.start 0) (plainRequest "GET" "/ping")
        = PingHandler ⟨okClient⟩ { World.start 0 with w := w1 } (plainRequest "GET" "/ping") ∧
      w1.unwritten = true ∧
      Header.Get w1.header "Access-Control-Allow-Origin" = "*" ∧
      Header.Get w1.header "Access-Control-Allow-Methods" = "GET, POST, OPTIONS" ∧
      Header.Get w1.header "Access-Control-Allow-Headers" = "Content-Type") :=
  ⟨(cors_middleware_options_and_pass (PingHandler ⟨okClient⟩) (World.start 0)
      (plainRequest "OPTIONS" "/ping") rfl).1 rfl,
   (cors_middleware_options_and_pass (PingHandler ⟨okClient⟩) (World.start 0)
      (plainRequest "GET" "/ping") rfl).2 (by decide)⟩

/-! ## Failures of the daemon -/

/-- C4: when the call to the daemon returns the error `e`, each of the four
handlers that reach the daemon answers 500; the body is one line of text, the
handler's fixed label followed by `e` as it is, and no JSON document; the trace
gains exactly one daemon call and the daemon is left in the state after that
one call.  The scan handlers reach the daemon on a POST whose body was read
(text) or whose form gave a `file` (upload). -/
theorem daemon_error_is_500 {σ : Type} (s : Server σ) (st : World σ) (r : Request)
    (e : String) (hw : st.w.unwritten = true) :
    ((s.clamdClient.Ping st.daemon).1 = .error e →
      (PingHandler s st r).w.status = some 500 ∧
      (PingHandler s st r).w.body = [Chunk.text ("Failed to ping ClamAV: " ++ e ++ "\n")] ∧
      daemonCalls (PingHandler s st r).trace = daemonCalls st.trace + 1 ∧
      (PingHandler s st r).daemon = (s.clamdClient.Ping st.daemon).2) ∧
    ((s.clamdClient.Version st.daemon).1 = .error e →
      (VersionHandler s st r).w.status = some 500 ∧
      (VersionHandler s st r).w.body
        = [Chunk.text ("Failed to get ClamAV version: " ++ e ++ "\n")] ∧
      daemonCalls (VersionHandler s st r).trace = daemonCalls st.trace + 1 ∧
      (VersionHandler s st r).daemon = (s.clamdClient.Version st.daemon).2) ∧
    (∀ body : Bytes, r.Method = "POST" → r.Body = .ok body →
      (s.clamdClient.ScanReader st.daemon body).1 = .error e →
      (ScanTextHandler s st r).w.status = some 500 ∧
      (ScanTextHandler s st r).w.body = [Chunk.text ("Scan failed: " ++ e ++ "\n")] ∧
      daemonCalls (ScanTextHandler s st r).trace = daemonCalls st.trace + 1 ∧
      (ScanTextHandler s st r).daemon = (s.clamdClient.ScanReader st.daemon body).2) ∧
    (∀ (form : Form) (handler : FileHeader), r.Method = "POST" →
      ParseMultipartForm r (10 * 2 ^ 20) = .ok form → FormFile form "file" = .ok handler →
      (s.clamdClient.ScanReader st.daemon handler.content).1 = .error e →
      (ScanFileHandler s st r).w.status = some 500 ∧
      (ScanFileHandler s st r).w.body = [Chunk.text ("Scan failed: " ++ e ++ "\n")] ∧
      daemonCalls (ScanFileHandler s st r).trace = daemonCalls st.trace + 1 ∧
      (ScanFileHandler s st r).daemon
        = (s.clamdClient.ScanReader st.daemon handler.content).2) := by
  obtain ⟨hs, hb⟩ := unwritten_spec _ hw
  refine ⟨fun he => ?_, fun he => ?_, fun body hm hbody he => ?_,
    fun form handler hm hf hh he => ?_⟩
  · simp [PingHandler, he, Error_status _ _ _ hs, Error_body _ _ _ hs, hb,
      StatusInternalServerError, daemonCalls_append, daemonCalls, Event.isDaemonCall,
      String.append_assoc]
  · simp [VersionHandler, he, Error_status _ _ _ hs, Error_body _ _ _ hs, hb,
      StatusInternalServerError, daemonCalls_append, daemonCalls, Event.isDaemonCall,
      String.append_assoc]
  · rw [ScanTextHandler_error s st r body e hm hbody he]
    simp [Error_status _ _ _ hs, Error_body _ _ _ hs, hb,
      StatusInternalServerError, daemonCalls_append, daemonCalls, Event.isDaemonCall,
      String.append_assoc]
  · rw [ScanFileHandler_error s st r form handler e hm hf hh he]
    simp [Error_status _ _ _ hs, Error_body _ _ _ hs, hb,
      StatusInternalServerError, daemonCalls_append, daemonCalls, Event.isDaemonCall,
      String.append_assoc]

theorem daemon_error_is_500_witness :
    ((PingHandler ⟨downClient⟩ (World.start 0) (plainRequest "GET" "/ping")).w.status
        = some 500 ∧
      (PingHandler ⟨downClient⟩ (World.start 0) (plainRequest "GET" "/ping")).w.body
        = [Chunk.text ("Failed to ping ClamAV: " ++ "dial tcp: connection refused" ++ "\n")] ∧
      daemonCalls (PingHandler ⟨downClient⟩ (World.start 0) (plainRequest "GET" "/ping")).trace
        = daemonCalls (World.start 0).trace + 1 ∧
      (PingHandler ⟨downClient⟩ (World.start 0) (plainRequest "GET" "/ping")).daemon
        = (downClient.Ping 0).2) ∧
    ((VersionHandler ⟨downClient⟩ (World.start 0) (plainRequest "GET" "/version")).w.status
        = some 500 ∧
      (VersionHandler ⟨downClient⟩ (World.start 0) (plainRequest "GET" "/version")).w.body
        = [Chunk.text ("Failed to get ClamAV version: " ++ "dial tcp: connection refused"
            ++ "\n")] ∧
      daemonCalls
          (VersionHandler ⟨downClient⟩ (World.start 0) (plainRequest "GET" "/version")).trace
        = daemonCalls (World.start 0).trace + 1 ∧
      (VersionHandler ⟨downClient⟩ (World.start 0) (plainRequest "GET" "/version")).daemon
        = (downClient.Version 0).2) ∧
    ((ScanTextHandler ⟨downClient⟩ (World.start 0) (textRequest [104, 105])).w.status
        = some 500 ∧
      (ScanTextHandler ⟨downClient⟩ (World.start 0) (textRequest [104, 105])).w.body
        = [Chunk.text ("Scan failed: " ++ "dial tcp: connection refused" ++ "\n")] ∧
      daemonCalls (ScanTextHandler ⟨downClient⟩ (World.start 0) (textRequest [104, 105])).trace
        = daemonCalls (World.start 0).trace + 1 ∧
      (ScanTextHandler ⟨downClient⟩ (World.start 0) (textRequest [104, 105])).daemon
        = (downClient.ScanReader 0 [104, 105]).2) ∧
    ((ScanFileHandler ⟨downClient⟩ (World.start 0) sampleUpload).w.status = some 500 ∧
      (ScanFileHandler ⟨downClient⟩ (World.start 0) sampleUpload).w.body
        = [Chunk.text ("Scan failed: " ++ "dial tcp: connection refused" ++ "\n")] ∧
      daemonCalls (ScanFileHandler ⟨downClient⟩ (World.start 0) sampleUpload).trace
        = daemonCalls (World.start 0).trace + 1 ∧
      (ScanFileHandler ⟨downClient⟩ (World.start 0) sampleUpload).daemon
        = (downClient.ScanReader 0 (List.replicate 17 65)).2) :=
  ⟨(daemon_error_is_500 ⟨downClient⟩ (World.start 0) (plainRequest "GET" "/ping")
      "dial tcp: connection refused" rfl).1 rfl,
   (daemon_error_is_500 ⟨downClient⟩ (World.start 0) (plainRequest "GET" "/version")
      "dial tcp: connection refused" rfl).2.1 rfl,
   (daemon_error_is_500 ⟨downClient⟩ (World.start 0) (textRequest [104, 105])
      "dial tcp: connection refused" rfl).2.2.1 [104, 105] rfl rfl rfl,
   (daemon_error_is_500 ⟨downClient⟩ (World.start 0) sampleUpload
      "dial tcp: connection refused" rfl).2.2.2
      sampleForm sampleHeader rfl rfl rfl rfl⟩

/-! ## The ping route -/

/-- C5, the claim as stated fails: a daemon client whose ping returns `false`
with no error gets status 200 and a document whose `success` member is `false`. -/
theorem ping_success_false_counterexample :
    (foundClient.Ping 0).1 = .ok false ∧
    (PingHandler ⟨foundClient⟩ (World.start 0) (plainRequest "GET" "/ping")).w.status
      = some 200 ∧
    (PingHandler ⟨foundClient⟩ (World.start 0) (plainRequest "GET" "/ping")).w.body
      = [Chunk.json (.obj [("message", .str "ClamAV daemon is responding"),
          ("success", .bool false)])] ∧
    JSON.field "success" (.obj [("message", .str "ClamAV daemon is responding"),
      ("success", .bool false)]) = some (.bool false) := by
  refine ⟨rfl, ?_, ?_, ?_⟩
  · simp [PingHandler, foundClient, World.start, ResponseWriter.new, Encode_json_status]
  · simp [PingHandler, foundClient, World.start, ResponseWriter.new, Encode_json_body]
  · simp [JSON.field, List.find?_cons]

/-- C5, amended: when the daemon ping returns an error `e`, `PingHandler` answers
500 with a line of text that carries `e`; when it returns the boolean `b` with
no error, the answer is status 200 and a JSON object whose `success` member is
`b`, the value the daemon returned, and whose `message` member is a string. -/
theorem ping_handler_relays_result {σ : Type} (s : Server σ) (st : World σ) (r : Request)
    (hw : st.w.unwritten = true) :
    (∀ e : String, (s.clamdClient.Ping st.daemon).1 = .error e →
      (PingHandler s st r).w.status = some 500 ∧
      (PingHandler s st r).w.body = [Chunk.text ("Failed to ping ClamAV: " ++ e ++ "\n")]) ∧
    (∀ b : Bool, (s.clamdClient.Ping st.daemon).1 = .ok b →
      (PingHandler s st r).w.status = some 200 ∧
      ∃ doc : JSON, (PingHandler s st r).w.body = [Chunk.json doc] ∧
        JSON.field "success" doc = some (.bool b) ∧
        JSON.field "message" doc = some (.str "ClamAV daemon is responding")) := by
  obtain ⟨hs, hb⟩ := unwritten_spec _ hw
  refine ⟨fun e he => ?_, fun b hok => ?_⟩
  · simp [PingHandler, he, Error_status _ _ _ hs, Error_body _ _ _ hs, hb,
      StatusInternalServerError, String.append_assoc]
  · refine ⟨?_, JSON.obj [("message", .str "ClamAV daemon is responding"),
      ("success", .bool b)], ?_, ?_, ?_⟩
    · simp [PingHandler, hok, Encode_json_status _ _ hs]
    · simp only [PingHandler, hok, Encode_json_body _ _ hs, hb, List.nil_append]
    · simp [JSON.field, List.find?_cons]
    · simp [JSON.field, List.find?_cons]

theorem ping_handler_relays_result_witness :
    ((PingHandler ⟨downClient⟩ (World.start 0) (plainRequest "GET" "/ping")).w.status
        = some 500 ∧
      (PingHandler ⟨downClient⟩ (World.start 0) (plainRequest "GET" "/ping")).w.body
        = [Chunk.text ("Failed to ping ClamAV: " ++ "dial tcp: connection refused" ++ "\n")]) ∧
    ((PingHandler ⟨okClient⟩ (World.start 0) (plainRequest "GET" "/ping")).w.status
        = some 200 ∧
      ∃ doc : JSON,
        (PingHandler ⟨okClient⟩ (World.start 0) (plainRequest "GET" "/ping")).w.body
          = [Chunk.json doc] ∧
        JSON.field "success" doc = some (.bool true) ∧
        JSON.field "message" doc = some (.str "ClamAV daemon is responding")) :=
  ⟨(ping_handler_relays_result ⟨downClient⟩ (World.start 0) (plainRequest "GET" "/ping")
      rfl).1 "dial tcp: connection refused" rfl,
   (ping_handler_relays_result ⟨okClient⟩ (World.start 0) (plainRequest "GET" "/ping")
      rfl).2 true rfl⟩

/-! ## Successful scans -/

/-- C1: when the daemon returns the results `L` without error, the `results`
that `ScanTextHandler` and `ScanFileHandler` write are the encodings of scan
results whose statuses are those of `L`, unchanged and in order, and each of
which has `Clean` true exactly when its `Status` is the string `OK`. -/
theorem scan_results_clean_iff_status_ok {σ : Type} (s : Server σ) (st : World σ)
    (r : Request) (L : List Response) (hw : st.w.unwritten = true) (hm : r.Method = "POST") :
    (∀ body : Bytes, r.Body = .ok body →
      (s.clamdClient.ScanReader st.daemon body).1 = .ok L →
      ∃ results : List ScanResult,
        (ScanTextHandler s st r).w.body
          = [Chunk.json (.obj [("results", .arr (results.map ScanResult.toJSON))])] ∧
        results.map (fun x => x.Status) = L.map (fun y => y.Status) ∧
        ∀ x ∈ results, (x.Clean = true ↔ x.Status = "OK")) ∧
    (∀ (form : Form) (handler : FileHeader),
      ParseMultipartForm r (10 * 2 ^ 20) = .ok form → FormFile form "file" = .ok handler →
      (s.clamdClient.ScanReader st.daemon handler.content).1 = .ok L →
      ∃ results : List ScanResult,
        (ScanFileHandler s st r).w.body
          = [Chunk.json (.obj [("filename", .str handler.Filename),
              ("results", .arr (results.map ScanResult.toJSON)),
              ("size", .num handler.Size)])] ∧
        results.map (fun x => x.Status) = L.map (fun y => y.Status) ∧
        ∀ x ∈ results, (x.Clean = true ↔ x.Status = "OK")) := by
  obtain ⟨hs, hb⟩ := unwritten_spec _ hw
  refine ⟨fun body hbody hL => ?_, fun form handler hf hh hL => ?_⟩
  · refine ⟨L.map (fun result =>
        (⟨result.Filename, result.Status, result.Status == "OK"⟩ : ScanResult)), ?_, ?_, ?_⟩
    · rw [ScanTextHandler_ok s st r body L hm hbody hL]
      simp [Encode_json_body _ _ hs, hb, textResults_eq, encodeResults]
    · simp
    · intro x hx
      simp only [List.mem_map] at hx
      obtain ⟨y, _, rfl⟩ := hx
      simp
  · refine ⟨L.map (fun result =>
        (⟨handler.Filename, result.Status, result.Status == "OK"⟩ : ScanResult)), ?_, ?_, ?_⟩
    · rw [ScanFileHandler_ok s st r form handler L hm hf hh hL]
      simp [Encode_json_body _ _ hs, hb, fileResults_eq, encodeResults]
    · simp
    · intro x hx
      simp only [List.mem_map] at hx
      obtain ⟨y, _, rfl⟩ := hx
      simp

theorem scan_results_clean_iff_status_ok_witness :
    (∃ results : List ScanResult,
      (ScanTextHandler ⟨foundClient⟩ (World.start 0) (textRequest [104, 105])).w.body
        = [Chunk.json (.obj [("results", .arr (results.map ScanResult.toJSON))])] ∧
      results.map (fun x => x.Status)
        = [({ Filename := "stream", Status := "FOUND" } : Response),
           { Filename := "other", Status := "ok" }].map (fun y => y.Status) ∧
      ∀ x ∈ results, (x.Clean = true ↔ x.Status = "OK")) ∧
    (∃ results : List ScanResult,
      (ScanFileHandler ⟨foundClient⟩ (World.start 0) sampleUpload).w.body
        = [Chunk.json (.obj [("filename", .str sampleHeader.Filename),
            ("results", .arr (results.map ScanResult.toJSON)),
            ("size", .num sampleHeader.Size)])] ∧
      results.map (fun x => x.Status)
        = [({ Filename := "stream", Status := "FOUND" } : Response),
           { Filename := "other", Status := "ok" }].map (fun y => y.Status) ∧
      ∀ x ∈ results, (x.Clean = true ↔ x.Status = "OK")) :=
  ⟨(scan_results_clean_iff_status_ok ⟨foundClient⟩ (World.start 0) (textRequest [104, 105])
      _ rfl rfl).1 [104, 105] rfl rfl,
   (scan_results_clean_iff_status_ok ⟨foundClient⟩ (World.start 0) sampleUpload
      _ rfl rfl).2 sampleForm sampleHeader rfl rfl rfl⟩

/-- C10: when the daemon returns the results `L` without error, the `results`
member written by either scan handler is a JSON array, never `null`, of as many
entries as `L` has; its i-th entry carries the status of the i-th entry of `L`,
and in `ScanTextHandler` also its filename; for the empty `L` it is the empty
array. -/
theorem scan_results_keep_order {σ : Type} (s : Server σ) (st : World σ)
    (r : Request) (L : List Response) (hw : st.w.unwritten = true) (hm : r.Method = "POST") :
    (∀ body : Bytes, r.Body = .ok body →
      (s.clamdClient.ScanReader st.daemon body).1 = .ok L →
      ∃ (doc : JSON) (results : List ScanResult),
        (ScanTextHandler s st r).w.body = [Chunk.json doc] ∧
        JSON.field "results" doc = some (.arr (results.map ScanResult.toJSON)) ∧
        results.length = L.length ∧
        (∀ i : Nat, (results[i]?).map (fun x => x.Status)
          = (L[i]?).map (fun y => y.Status)) ∧
        (∀ i : Nat, (results[i]?).map (fun x => x.Filename)
          = (L[i]?).map (fun y => y.Filename)) ∧
        (L = [] → JSON.field "results" doc = some (.arr []))) ∧
    (∀ (form : Form) (handler : FileHeader),
      ParseMultipartForm r (10 * 2 ^ 20) = .ok form → FormFile form "file" = .ok handler →
      (s.clamdClient.ScanReader st.daemon handler.content).1 = .ok L →
      ∃ (doc : JSON) (results : List ScanResult),
        (ScanFileHandler s st r).w.body = [Chunk.json doc] ∧
        JSON.field "results" doc = some (.arr (results.map ScanResult.toJSON)) ∧
        results.length = L.length ∧
        (∀ i : Nat, (results[i]?).map (fun x => x.Status)
          = (L[i]?).map (fun y => y.Status)) ∧
        (L = [] → JSON.field "results" doc = some (.arr []))) := by
  obtain ⟨hs, hb⟩ := unwritten_spec _ hw
  refine ⟨fun body hbody hL => ?_, fun form handler hf hh hL => ?_⟩
  · refine ⟨JSON.obj [("results", encodeResults (textResults L))], L.map (fun result =>
        (⟨result.Filename, result.Status, result.Status == "OK"⟩ : ScanResult)), ?_, ?_, ?_, ?_, ?_, ?_⟩
    · rw [ScanTextHandler_ok s st r body L hm hbody hL]
      simp only [Encode_json_body _ _ hs, hb, List.nil_append]
    · simp [JSON.field, List.find?_cons, textResults_eq, encodeResults]
    · simp
    · intro i; rw [List.getElem?_map]; cases L[i]? <;> rfl
    · intro i; rw [List.getElem?_map]; cases L[i]? <;> rfl
    · intro hnil; subst hnil
      simp [JSON.field, List.find?_cons, textResults_eq, encodeResults]
  · refine ⟨JSON.obj [("filename", .str handler.Filename),
        ("results", encodeResults (fileResults handler L)), ("size", .num handler.Size)],
      L.map (fun result =>
        (⟨handler.Filename, result.Status, result.Status == "OK"⟩ : ScanResult)), ?_, ?_, ?_, ?_, ?_⟩
    · rw [ScanFileHandler_ok s st r form handler L hm hf hh hL]
      simp only [Encode_json_body _ _ hs, hb, List.nil_append]
    · simp [JSON.field, List.find?_cons, fileResults_eq, encodeResults]
    · simp
    · intro i; rw [List.getElem?_map]; cases L[i]? <;> rfl
    · intro hnil; subst hnil
      simp [JSON.field, List.find?_cons, fileResults_eq, encodeResults]

theorem scan_results_keep_order_witness :
    (∃ (doc : JSON) (results : List ScanResult),
      (ScanTextHandler ⟨silentClient⟩ (World.start 0) (textRequest [])).w.body
        = [Chunk.json doc] ∧
      JSON.field "results" doc = some (.arr (results.map ScanResult.toJSON)) ∧
      results.length = ([] : List Response).length ∧
      (∀ i : Nat, (results[i]?).map (fun x => x.Status)
        = (([] : List Response)[i]?).map (fun y => y.Status)) ∧
      (∀ i : Nat, (results[i]?).map (fun x => x.Filename)
        = (([] : List Response)[i]?).map (fun y => y.Filename)) ∧
      (([] : List Response) = [] → JSON.field "results" doc = some (.arr []))) ∧
    (∃ (doc : JSON) (results : List ScanResult),
      (ScanFileHandler ⟨foundClient⟩ (World.start 0) sampleUpload).w.body = [Chunk.json doc] ∧
      JSON.field "results" doc = some (.arr (results.map ScanResult.toJSON)) ∧
      results.length = 2) :=
  ⟨(scan_results_keep_order ⟨silentClient⟩ (World.start 0) (textRequest []) []
      rfl rfl).1 [] rfl rfl,
   by
     obtain ⟨doc, results, h1, h2, h3, _⟩ :=
       (scan_results_keep_order ⟨foundClient⟩ (World.start 0) sampleUpload
         [⟨"stream", "FOUND"⟩, ⟨"other", "ok"⟩] rfl rfl).2
         sampleForm sampleHeader rfl rfl rfl
     exact ⟨doc, results, h1, h2, h3⟩⟩

/-! ## File uploads -/

/-- C7, the claim as stated fails: the upload of seventeen bytes under the
original file name `dir/sub/sample.txt` parses, is scanned, and is answered 200
with `filename` equal to `sample.txt`, the name without its directories, which
is also the `Filename` of the result entry. -/
theorem upload_filename_is_base_counterexample :
    nestedUpload.Multipart
      = .ok [filePart "file" "dir/sub/sample.txt" (List.replicate 17 65)] ∧
    (filePart "file" "dir/sub/sample.txt" (List.replicate 17 65)).Filename
      = "dir/sub/sample.txt" ∧
    (ScanFileHandler ⟨okClient⟩ (World.start 0) nestedUpload).w.status = some 200 ∧
    (ScanFileHandler ⟨okClient⟩ (World.start 0) nestedUpload).w.body
      = [Chunk.json (.obj [("filename", .str "sample.txt"),
          ("results", .arr [ScanResult.toJSON ⟨"sample.txt", "OK", true⟩]),
          ("size", .num 17)])] ∧
    JSON.field "filename" (.obj [("filename", .str "sample.txt"),
        ("results", .arr [ScanResult.toJSON ⟨"sample.txt", "OK", true⟩]),
        ("size", .num 17)]) = some (.str "sample.txt") ∧
    ("sample.txt" : String) ≠ "dir/sub/sample.txt" := by
  have hf : ParseMultipartForm nestedUpload (10 * 2 ^ 20) = .ok sampleForm := rfl
  have hrun := ScanFileHandler_ok ⟨okClient⟩ (World.start 0) nestedUpload sampleForm
    sampleHeader [⟨"stream", "OK"⟩] rfl hf rfl rfl
  refine ⟨rfl, rfl, ?_, ?_, ?_, by decide⟩
  · rw [hrun]
    exact Encode_json_status _ _ rfl
  · rw [hrun]
    simp only [Encode_json_body _ _ (rfl : (World.start (0 : Nat)).w.sent = none)]
    rfl
  · simp [JSON.field, List.find?_cons]

/-- C7, amended: on a POST whose form parses and whose first file part named
`file` has original file name `n` and `s` bytes of data, when the daemon scan
returns without error, `ScanFileHandler` answers 200 with a document whose
`filename` is the last path element of `n` (`filepath.Base` of `n`, as
`Part.FileName` returns it), whose `size` is `s`, and whose `results` are one
entry per daemon result, each with `Filename` equal to that same base name,
whatever filename the daemon reported. -/
theorem upload_echoes_base_name_and_size {σ : Type} (s : Server σ) (st : World σ)
    (r : Request) (parts : List Part) (form : Form) (p : Part) (L : List Response)
    (hw : st.w.unwritten = true) (hm : r.Method = "POST")
    (hparts : r.Multipart = .ok parts)
    (hf : ParseMultipartForm r (10 * 2 ^ 20) = .ok form)
    (hp : parts.find? (fun q => q.FormName == "file" && !(q.FileName == "")) = some p)
    (hL : (s.clamdClient.ScanReader st.daemon p.content).1 = .ok L) :
    (ScanFileHandler s st r).w.status = some 200 ∧
    ∃ (doc : JSON) (results : List ScanResult),
      (ScanFileHandler s st r).w.body = [Chunk.json doc] ∧
      JSON.field "filename" doc = some (.str (Base p.Filename)) ∧
      JSON.field "size" doc = some (.num p.content.length) ∧
      JSON.field "results" doc = some (.arr (results.map ScanResult.toJSON)) ∧
      results.length = L.length ∧
      ∀ x ∈ results, x.Filename = Base p.Filename := by
  obtain ⟨hs, hb⟩ := unwritten_spec _ hw
  obtain ⟨handler, hh, hn, hsz, hc⟩ := FormFile_of_first_part r parts form p hparts hf hp
  have hfile : p.FileName ≠ "" := by
    have hmem := List.find?_some hp
    simp only [Bool.and_eq_true, Bool.not_eq_true', beq_eq_false_iff_ne, ne_eq] at hmem
    exact hmem.2
  rw [FileName_eq_Base p hfile] at hn
  rw [← hc] at hL
  rw [ScanFileHandler_ok s st r form handler L hm hf hh hL]
  refine ⟨Encode_json_status _ _ hs, JSON.obj [("filename", .str handler.Filename),
      ("results", encodeResults (fileResults handler L)), ("size", .num handler.Size)],
    L.map (fun result =>
      (⟨handler.Filename, result.Status, result.Status == "OK"⟩ : ScanResult)),
    ?_, ?_, ?_, ?_, ?_, ?_⟩
  · simp only [Encode_json_body _ _ hs, hb, List.nil_append]
  · simp [JSON.field, List.find?_cons, hn]
  · simp [JSON.field, List.find?_cons, hsz]
  · simp [JSON.field, List.find?_cons, fileResults_eq, encodeResults]
  · simp
  · intro x hx
    simp only [List.mem_map] at hx
    obtain ⟨y, _, rfl⟩ := hx
    exact hn

theorem upload_echoes_base_name_and_size_witness :
    (ScanFileHandler ⟨foundClient⟩ (World.start 0) nestedUpload).w.status = some 200 ∧
    ∃ (doc : JSON) (results : List ScanResult),
      (ScanFileHandler ⟨foundClient⟩ (World.start 0) nestedUpload).w.body = [Chunk.json doc] ∧
      JSON.field "filename" doc = some (.str (Base "dir/sub/sample.txt")) ∧
      JSON.field "size" doc = some (.num ((List.replicate 17 (65 : UInt8)).length)) ∧
      JSON.field "results" doc = some (.arr (results.map ScanResult.toJSON)) ∧
      results.length = 2 ∧
      ∀ x ∈ results, x.Filename = Base "dir/sub/sample.txt" :=
  upload_echoes_base_name_and_size ⟨foundClient⟩ (World.start 0) nestedUpload
    [filePart "file" "dir/sub/sample.txt" (List.replicate 17 65)] sampleForm
    (filePart "file" "dir/sub/sample.txt" (List.replicate 17 65))
    [⟨"stream", "FOUND"⟩, ⟨"other", "ok"⟩] rfl rfl rfl rfl rfl rfl

/-- C9: on a POST whose multipart form parses but has no part named `file`,
`ScanFileHandler` answers 400 with its fixed message, and the daemon is not
called: the trace gains no daemon call and the daemon state is unchanged. -/
theorem upload_without_file_is_400 {σ : Type} (s : Server σ) (st : World σ) (r : Request)
    (parts : List Part) (form : Form)
    (hw : st.w.unwritten = true) (hm : r.Method = "POST")
    (hparts : r.Multipart = .ok parts)
    (hf : ParseMultipartForm r (10 * 2 ^ 20) = .ok form)
    (hno : ∀ p ∈ parts, p.FormName ≠ "file") :
    (ScanFileHandler s st r).w.status = some 400 ∧
    (ScanFileHandler s st r).w.body = [Chunk.text "Failed to get file from form\n"] ∧
    scanCalls (ScanFileHandler s st r).trace = scanCalls st.trace ∧
    daemonCalls (ScanFileHandler s st r).trace = daemonCalls st.trace ∧
    (ScanFileHandler s st r).daemon = st.daemon := by
  obtain ⟨hs, hb⟩ := unwritten_spec _ hw
  have hnone : parts.find? (fun q => q.FormName == "file" && !(q.FileName == "")) = none := by
    rw [List.find?_eq_none]
    intro q hq
    simp [hno q hq]
  have hh := FormFile_of_no_part r parts form hparts hf hnone
  rw [ScanFileHandler_missing s st r form _ hm hf hh]
  simp [Error_status _ _ _ hs, Error_body _ _ _ hs, hb, StatusBadRequest, scanCalls_append,
    daemonCalls_append, scanCalls, daemonCalls, Event.isScan, Event.isDaemonCall]

theorem upload_without_file_is_400_witness :
    (ScanFileHandler ⟨okClient⟩ (World.start 0) strayUpload).w.status = some 400 ∧
    (ScanFileHandler ⟨okClient⟩ (World.start 0) strayUpload).w.body
      = [Chunk.text "Failed to get file from form\n"] ∧
    scanCalls (ScanFileHandler ⟨okClient⟩ (World.start 0) strayUpload).trace
      = scanCalls (World.start 0).trace ∧
    daemonCalls (ScanFileHandler ⟨okClient⟩ (World.start 0) strayUpload).trace
      = daemonCalls (World.start 0).trace ∧
    (ScanFileHandler ⟨okClient⟩ (World.start 0) strayUpload).daemon = 0 :=
  upload_without_file_is_400 ⟨okClient⟩ (World.start 0) strayUpload strayParts strayForm
    rfl rfl rfl rfl (by decide)

theorem ParseMultipartForm_large_file (c : Bytes) (hc : 10 * 2 ^ 20 < c.length) :
    ParseMultipartForm (uploadRequest [filePart "file" "big.bin" c]) (10 * 2 ^ 20)
      = .ok ⟨[], [("file", ⟨"big.bin", c.length, c, true⟩)]⟩ := by
  have h0 : (10485760 : Nat) < c.length := by simpa using hc
  have hL : headerLines (filePart "file" "big.bin" c).Header = 2 := rfl
  have hS : mimeHeaderSize (filePart "file" "big.bin" c).Header = 897 := rfl
  have hN : (filePart "file" "big.bin" c).FormName = "file" := rfl
  have hF : (filePart "file" "big.bin" c).FileName = "big.bin" := rfl
  have hC : (filePart "file" "big.bin" c).content = c := rfl
  have hB : ("file" : String).utf8ByteSize = 4 := rfl
  have hfile : ¬ ("file" : String) = "" := by decide
  have hbig : ¬ ("big.bin" : String) = "" := by decide
  have hmin : min (c.length : Int) (10485760 + 1) = 10485761 := by
    rw [min_eq_right]
    · norm_num
    · omega
  simp only [ParseMultipartForm, uploadRequest, ReadForm, readFormLoop, readFormPart, hL, hS,
    hN, hF, hC, hB, hfile, hbig, MaxInt64]
  norm_num [hmin, h0]

/-- C3, on the code: an upload whose `file` part holds 10 MiB and one byte is
not refused.  `ParseMultipartForm(10 << 20)` keeps at most 10 MiB of file data
in memory and writes a larger file to disk, so the form parses, the file is
handed to the daemon, and the answer is 200 with the size echoed. -/
theorem large_upload_is_scanned :
    (ScanFileHandler ⟨okClient⟩ (World.start 0) largeUpload).w.status = some 200 ∧
    scanCalls (ScanFileHandler ⟨okClient⟩ (World.start 0) largeUpload).trace = 1 ∧
    (ScanFileHandler ⟨okClient⟩ (World.start 0) largeUpload).daemon = 1 ∧
    ∃ doc : JSON,
      (ScanFileHandler ⟨okClient⟩ (World.start 0) largeUpload).w.body = [Chunk.json doc] ∧
      JSON.field "filename" doc = some (.str "big.bin") ∧
      JSON.field "size" doc = some (.num (10 * 2 ^ 20 + 1)) := by
  have key : ∀ c : Bytes, c.length = 10 * 2 ^ 20 + 1 →
      (ScanFileHandler ⟨okClient⟩ (World.start 0)
          (uploadRequest [filePart "file" "big.bin" c])).w.status = some 200 ∧
      scanCalls (ScanFileHandler ⟨okClient⟩ (World.start 0)
          (uploadRequest [filePart "file" "big.bin" c])).trace = 1 ∧
      (ScanFileHandler ⟨okClient⟩ (World.start 0)
          (uploadRequest [filePart "file" "big.bin" c])).daemon = 1 ∧
      ∃ doc : JSON,
        (ScanFileHandler ⟨okClient⟩ (World.start 0)
          (uploadRequest [filePart "file" "big.bin" c])).w.body = [Chunk.json doc] ∧
        JSON.field "filename" doc = some (.str "big.bin") ∧
        JSON.field "size" doc = some (.num (10 * 2 ^ 20 + 1)) := by
    intro c hc
    have hf := ParseMultipartForm_large_file c (by omega)
    rw [ScanFileHandler_ok ⟨okClient⟩ (World.start 0) _ _ ⟨"big.bin", c.length, c, true⟩
      [⟨"stream", "OK"⟩] rfl hf rfl rfl]
    refine ⟨Encode_json_status _ _ rfl, ?_, rfl,
      JSON.obj [("filename", .str "big.bin"),
        ("results", encodeResults (fileResults ⟨"big.bin", c.length, c, true⟩
          [⟨"stream", "OK"⟩])),
        ("size", .num c.length)], ?_, ?_, ?_⟩
    · simp [World.start, scanCalls, Event.isScan]
    · simp only [Encode_json_body _ _ (rfl : (World.start (0 : Nat)).w.sent = none)]
      rfl
    · simp [JSON.field, List.find?_cons]
    · simp [JSON.field, List.find?_cons, hc]
  have h := key (List.replicate (10 * 2 ^ 20 + 1) 0) (List.length_replicate _ _)
  unfold largeUpload
  exact h

end ClamavServer
